import Mathlib

/-!
Shallow embedding of the "Neural Interface" core of the Caroline Alpha
repository (`Caroline_Soul_Core_Pack/neural_interface.py`) and of the
mood-history truncation in `Caroline_Soul_Core_Pack/facial_intelligence.py`.

Python dictionaries are association lists over a small inductive type of
Python values; `d.get(k)` returns `pyNone` for a missing key while `d[k]`
raises `KeyError`, modelled by `Option` (`Option.none` = the call raised).
`datetime.now()` is modelled by an explicit timestamp parameter, and the
`random.random() < p` gates of the simulators by an explicit `Bool`
parameter giving the outcome of the draw.
-/

namespace Caroline

/-- A Python value, as far as the neural-interface code manipulates them:
`None`, booleans, integers, strings, lists and string-keyed dicts. -/
inductive PyVal where
  | pyNone
  | pyBool (b : Bool)
  | pyInt (n : Int)
  | pyStr (s : String)
  | pyList (xs : List PyVal)
  | pyDict (entries : List (String × PyVal))

/-- A Python dict with string keys, as an association list (first hit wins,
matching dict-key uniqueness in the source). -/
abbrev Dict := List (String × PyVal)

/-- Python truthiness, as used in `if scanner_data.get("location_extracted"):`
and `"executed" if decision.get("auto_execute") else ...`. -/
def truthy : PyVal → Bool
  | PyVal.pyNone => false
  | PyVal.pyBool b => b
  | PyVal.pyInt n => n != 0
  | PyVal.pyStr s => s != ""
  | PyVal.pyList xs => !xs.isEmpty
  | PyVal.pyDict es => !es.isEmpty

/-- `d[k]` on a dict: `Option.none` models a raised `KeyError`. -/
def dictGetItem (d : Dict) (k : String) : Option PyVal :=
  match d.find? (fun e => e.1 == k) with
  | some e => some e.2
  | Option.none => Option.none

/-- `d.get(k, dflt)`. -/
def dictGetD (d : Dict) (k : String) (dflt : PyVal) : PyVal :=
  match dictGetItem d k with
  | some v => v
  | Option.none => dflt

/-- `d.get(k)` (default `None`). -/
def dictGet (d : Dict) (k : String) : PyVal :=
  dictGetD d k PyVal.pyNone

/-- `v[k]` with a string key on an arbitrary value: only dicts support it,
anything else raises `TypeError` (`Option.none`). -/
def pyGetItem (v : PyVal) (k : String) : Option PyVal :=
  match v with
  | PyVal.pyDict es => dictGetItem es k
  | _ => Option.none

/-- `v > m` against an int literal: Python ints and bools compare as
integers, any other operand raises `TypeError` (`Option.none`). -/
def pyGtInt (v : PyVal) (m : Int) : Option Bool :=
  match v with
  | PyVal.pyInt n => some (decide (m < n))
  | PyVal.pyBool b => some (decide (m < (if b then (1 : Int) else 0)))
  | _ => Option.none

/-- A decision record as built by `AutonomousDecisionEngine`: every
construction site in the source sets `type`, `trigger`, `data`, `urgency`
and `auto_execute`; the `/force_decision` route also sets `forced`;
`execute_decision` later adds `executed_at` and `status`. -/
structure Decision where
  type : PyVal
  trigger : String
  data : PyVal
  urgency : String
  auto_execute : Bool
  forced : Bool := false
  status : Option String := Option.none
  executed_at : Option Nat := Option.none

/-- The mutable state of `AutonomousDecisionEngine`: the pending-decision
FIFO queue (head = front), the decision history and the user preferences. -/
structure EngineState where
  pending_decisions : List Decision
  decision_history : List Decision
  user_preferences : Dict

/-- `AutonomousDecisionEngine.__init__`. -/
def initEngine : EngineState :=
  { pending_decisions := [], decision_history := [], user_preferences := [] }

/-- `self.pending_decisions.put(decision)`: FIFO enqueue at the back. -/
def putPending (s : EngineState) (d : Decision) : EngineState :=
  { s with pending_decisions := s.pending_decisions ++ [d] }

/-- `AutonomousDecisionEngine.process_scanner_event`. -/
def process_scanner_event (scanner_data : Dict) (s : EngineState) : EngineState :=
  if truthy (dictGet scanner_data "location_extracted") then
    putPending s
      { type := PyVal.pyStr "route_optimization", trigger := "scanner_event",
        data := PyVal.pyDict scanner_data, urgency := "medium", auto_execute := true }
  else s

/-- `AutonomousDecisionEngine.process_weather_event`. -/
def process_weather_event (weather_data : Dict) (s : EngineState) : EngineState :=
  if truthy (dictGet weather_data "alerts") then
    putPending s
      { type := PyVal.pyStr "schedule_adjustment", trigger := "weather_alert",
        data := PyVal.pyDict weather_data, urgency := "high", auto_execute := true }
  else s

/-- `AutonomousDecisionEngine.process_traffic_event`. The source subscripts
`traffic_data["route_analysis"]["travel_time_change"]` directly, so a
missing key raises `KeyError` and a non-dict/non-numeric shape raises
`TypeError`: both are `Option.none` here. -/
def process_traffic_event (traffic_data : Dict) (s : EngineState) : Option EngineState :=
  match dictGetItem traffic_data "route_analysis" with
  | Option.none => Option.none
  | some ra =>
    match pyGetItem ra "travel_time_change" with
    | Option.none => Option.none
    | some v =>
      match pyGtInt v 10 with
      | Option.none => Option.none
      | some b =>
        if b then
          some (putPending s
            { type := PyVal.pyStr "route_change", trigger := "traffic_delay",
              data := PyVal.pyDict traffic_data, urgency := "medium", auto_execute := true })
        else some s

/-- `AutonomousDecisionEngine.process_schedule_event`:
`schedule_data.get("conflicts_resolved", 0) > 0`; the comparison raises
`TypeError` (`Option.none`) on a non-numeric value. -/
def process_schedule_event (schedule_data : Dict) (s : EngineState) : Option EngineState :=
  match pyGtInt (dictGetD schedule_data "conflicts_resolved" (PyVal.pyInt 0)) 0 with
  | Option.none => Option.none
  | some b =>
    if b then
      some (putPending s
        { type := PyVal.pyStr "client_communication", trigger := "schedule_conflict",
          data := PyVal.pyDict schedule_data, urgency := "high", auto_execute := false })
    else some s

/-- The record update done by `execute_decision` before the append:
`decision["executed_at"] = datetime.now()` and
`decision["status"] = "executed" if decision.get("auto_execute") else
"pending_approval"`. -/
def markExecuted (t : Nat) (d : Decision) : Decision :=
  { d with executed_at := some t,
           status := some (if d.auto_execute then "executed" else "pending_approval") }

/-- `AutonomousDecisionEngine.execute_decision`: stamp and append to
`self.decision_history`. -/
def execute_decision (t : Nat) (s : EngineState) (d : Decision) : EngineState :=
  { s with decision_history := s.decision_history ++ [markExecuted t d] }

/-- The `while not empty: get_nowait; execute` loop of
`process_pending_decisions`, folding the queued decisions into the
history in FIFO order. -/
def drainGo (t : Nat) : List Decision → List Decision → List Decision
  | [], hist => hist
  | d :: rest, hist => drainGo t rest (hist ++ [markExecuted t d])

/-- `AutonomousDecisionEngine.process_pending_decisions`: drains the whole
queue, executing each decision; the Python function has no `return`
statement, so its value is `None` (second component). -/
def process_pending_decisions (t : Nat) (s : EngineState) : EngineState × PyVal :=
  ({ s with pending_decisions := [],
            decision_history := drainGo t s.pending_decisions s.decision_history },
   PyVal.pyNone)

/-- The `/force_decision` route handler: builds the forced decision from the
request JSON (`data.get('type')`, `data.get('data', {})`), enqueues it, and
returns the JSON response. -/
def force_decision (data : Dict) (s : EngineState) : EngineState × Dict :=
  let decision_type := dictGet data "type"
  let decision_data := dictGetD data "data" (PyVal.pyDict [])
  let forced_decision : Decision :=
    { type := decision_type, trigger := "user_request", data := decision_data,
      urgency := "immediate", auto_execute := true, forced := true }
  (putPending s forced_decision,
   [("decision_queued", PyVal.pyBool true),
    ("decision_type", decision_type),
    ("status", PyVal.pyStr "will_execute_immediately")])

/-- `CarolineOS.fetch_weather_updates`: always the same literal dict, with
`alerts` the empty list. -/
def fetch_weather_updates (t : Nat) : Dict :=
  [("timestamp", PyVal.pyInt t),
   ("current_conditions", PyVal.pyDict
     [("temperature", PyVal.pyInt 72), ("humidity", PyVal.pyInt 45),
      ("wind_speed", PyVal.pyInt 8), ("precipitation", PyVal.pyInt 0)]),
   ("forecast_changes", PyVal.pyBool false),
   ("alerts", PyVal.pyList [])]

/-- `CarolineOS.analyze_traffic_conditions`: `gate` is the outcome of
`random.random() < 0.2`; on emission the literal dict always carries
`travel_time_change: 0`. -/
def analyze_traffic_conditions (t : Nat) (gate : Bool) : Option Dict :=
  if gate then
    some [("timestamp", PyVal.pyInt t),
          ("route_analysis", PyVal.pyDict
            [("primary_route", PyVal.pyStr "normal"),
             ("alternate_routes", PyVal.pyList [PyVal.pyStr "available"]),
             ("incidents", PyVal.pyList []),
             ("travel_time_change", PyVal.pyInt 0)])]
  else Option.none

/-- `CarolineOS.optimize_schedule`: always the same literal dict, with
`conflicts_resolved: 0`. -/
def optimize_schedule (t : Nat) : Dict :=
  [("timestamp", PyVal.pyInt t),
   ("optimizations", PyVal.pyList []),
   ("conflicts_resolved", PyVal.pyInt 0),
   ("efficiency_gain", PyVal.pyInt 0)]

/-- The `self.mood_tracking` dict of `CarolineFacialIntelligence`, with its
fields made explicit. -/
structure MoodTracking where
  baseline_established : Bool
  current_mood : PyVal
  mood_history : List PyVal
  stress_level : Int
  engagement_level : Int
  authenticity_score : Int

/-- `CarolineFacialIntelligence.__init__`, restricted to `mood_tracking`. -/
def initMoodTracking : MoodTracking :=
  { baseline_established := false, current_mood := PyVal.pyStr "neutral",
    mood_history := [], stress_level := 0, engagement_level := 0,
    authenticity_score := 100 }

/-- The `# Keep only last 100 entries` step of `_update_mood_tracking`:
`if len(h) > 100: h = h[-100:]`. -/
def truncate100 (l : List PyVal) : List PyVal :=
  if l.length > 100 then l.drop (l.length - 100) else l

/-- `CarolineFacialIntelligence._update_mood_tracking`: extracts the mood
fields from `analysis_result` by direct subscripting (a missing key raises
`KeyError`, modelled as `Option.none`, leaving `mood_history` untouched),
appends the new entry, and truncates `mood_history` to its last 100
entries (`[-100:]`) when it exceeds 100. -/
def update_mood_tracking (analysis_result : Dict) (mt : MoodTracking) : Option MoodTracking :=
  match (dictGetItem analysis_result "mood_assessment").bind
          (fun ma => pyGetItem ma "overall_mood") with
  | Option.none => Option.none
  | some current_mood =>
    match dictGetItem analysis_result "timestamp" with
    | Option.none => Option.none
    | some ts =>
      match (dictGetItem analysis_result "emotion_analysis").bind
              (fun ea => pyGetItem ea "primary_emotion") with
      | Option.none => Option.none
      | some emo =>
        match (dictGetItem analysis_result "stress_indicators").bind
                (fun si => pyGetItem si "stress_level") with
        | Option.none => Option.none
        | some stress =>
          match (dictGetItem analysis_result "engagement_level").bind
                  (fun el => pyGetItem el "engagement_score") with
          | Option.none => Option.none
          | some eng =>
            some { mt with
                     current_mood := current_mood,
                     mood_history := truncate100 (mt.mood_history ++
                       [PyVal.pyDict
                         [("timestamp", ts), ("mood", current_mood), ("emotion", emo),
                          ("stress_level", stress), ("engagement", eng)]]) }

/-- A well-formed facial-analysis result, used to exercise
`update_mood_tracking` on concrete data. -/
def analysisResultExample : Dict :=
  [("timestamp", PyVal.pyStr "t0"),
   ("mood_assessment", PyVal.pyDict [("overall_mood", PyVal.pyStr "positive")]),
   ("emotion_analysis", PyVal.pyDict [("primary_emotion", PyVal.pyStr "joy")]),
   ("stress_indicators", PyVal.pyDict [("stress_level", PyVal.pyInt 1)]),
   ("engagement_level", PyVal.pyDict [("engagement_score", PyVal.pyInt 2)])]

/-- The mood-tracking state reached from `initMoodTracking` by processing
`analysisResultExample`. -/
def moodAfterExample : MoodTracking :=
  { baseline_established := false, current_mood := PyVal.pyStr "positive",
    mood_history :=
      [PyVal.pyDict
        [("timestamp", PyVal.pyStr "t0"), ("mood", PyVal.pyStr "positive"),
         ("emotion", PyVal.pyStr "joy"), ("stress_level", PyVal.pyInt 1),
         ("engagement", PyVal.pyInt 2)]],
    stress_level := 0, engagement_level := 0, authenticity_score := 100 }

/-! ### Helper lemmas -/

theorem dictGet_of_getItem_some {d : Dict} {k : String} {v : PyVal}
    (h : dictGetItem d k = some v) : dictGet d k = v := by
  simp [dictGet, dictGetD, h]

theorem dictGet_of_getItem_none {d : Dict} {k : String}
    (h : dictGetItem d k = Option.none) : dictGet d k = PyVal.pyNone := by
  simp [dictGet, dictGetD, h]

theorem dictGetD_of_getItem_some {d : Dict} {k : String} {v dflt : PyVal}
    (h : dictGetItem d k = some v) : dictGetD d k dflt = v := by
  simp [dictGetD, h]

theorem dictGetD_of_getItem_none {d : Dict} {k : String} {dflt : PyVal}
    (h : dictGetItem d k = Option.none) : dictGetD d k dflt = dflt := by
  simp [dictGetD, h]

theorem drainGo_eq (t : Nat) :
    ∀ pend hist : List Decision,
      drainGo t pend hist = hist ++ pend.map (markExecuted t)
  | [], hist => by simp [drainGo]
  | d :: rest, hist => by
    rw [drainGo, drainGo_eq t rest]
    simp

theorem process_pending_decisions_history (t : Nat) (s : EngineState) :
    (process_pending_decisions t s).1.decision_history =
      s.decision_history ++ s.pending_decisions.map (markExecuted t) := by
  simp [process_pending_decisions, drainGo_eq]

/-! ### Claims -/

/-- Claim C1: a scanner event whose payload has `location_extracted == true`
enqueues exactly one `route_optimization` decision (trigger `scanner_event`,
urgency `medium`, `auto_execute = true`, carrying the payload); when
`location_extracted` is absent (`.get` returns `None`) or `false`, no
decision is enqueued and the state is unchanged. -/
theorem C1_scanner_event_rule (d : Dict) (s : EngineState) :
    (dictGet d "location_extracted" = PyVal.pyBool true →
      process_scanner_event d s =
        { s with pending_decisions := s.pending_decisions ++
            [{ type := PyVal.pyStr "route_optimization", trigger := "scanner_event",
               data := PyVal.pyDict d, urgency := "medium", auto_execute := true }] }) ∧
    ((dictGet d "location_extracted" = PyVal.pyNone ∨
      dictGet d "location_extracted" = PyVal.pyBool false) →
      process_scanner_event d s = s) := by
  constructor
  · intro h
    simp [process_scanner_event, h, truthy, putPending]
  · rintro (h | h) <;> simp [process_scanner_event, h, truthy]

/-- Witness for C1 at a concrete payload and the initial engine state. -/
theorem C1_scanner_event_rule_witness :
    process_scanner_event [("location_extracted", PyVal.pyBool true)] initEngine =
      { pending_decisions :=
          [{ type := PyVal.pyStr "route_optimization", trigger := "scanner_event",
             data := PyVal.pyDict [("location_extracted", PyVal.pyBool true)],
             urgency := "medium", auto_execute := true }],
        decision_history := [], user_preferences := [] } := by
  have h := (C1_scanner_event_rule [("location_extracted", PyVal.pyBool true)] initEngine).1 rfl
  simpa [initEngine, putPending] using h

/-- Claim C2, counterexample: `process_pending_decisions` has no `return`
statement, so on an empty queue it returns Python `None`, not the int `0`
the claim states. -/
theorem C2_drain_returns_none_not_zero :
    (process_pending_decisions 0 initEngine).2 = PyVal.pyNone ∧
    (process_pending_decisions 0 initEngine).2 ≠ PyVal.pyInt 0 :=
  ⟨rfl, fun h => PyVal.noConfusion h⟩

/-- Claim C2, amended: the drain returns `None` (not a count); on an empty
pending queue it executes nothing and leaves the whole engine state — in
particular the decision history — unchanged. -/
theorem C2_drain_empty_queue (t : Nat) (s : EngineState)
    (h : s.pending_decisions = []) :
    process_pending_decisions t s = (s, PyVal.pyNone) := by
  obtain ⟨pend, hist, prefs⟩ := s
  simp only at h
  subst h
  simp [process_pending_decisions, drainGo]

/-- Witness for C2's amended theorem at the initial engine state. -/
theorem C2_drain_empty_queue_witness :
    process_pending_decisions 0 initEngine = (initEngine, PyVal.pyNone) :=
  C2_drain_empty_queue 0 initEngine rfl

/-- Claim C3: every decision appended to the history by `execute_decision`
has `executed_at` set, its status is `executed` iff `auto_execute` is true
(and `pending_approval` otherwise), and its status always lies in
`{executed, pending_approval}` — so `executed_at` is set exactly when the
status is one of those two. -/
theorem C3_execute_decision_invariant (t : Nat) (d : Decision) (s : EngineState) :
    (execute_decision t s d).decision_history =
      s.decision_history ++ [markExecuted t d] ∧
    (markExecuted t d).executed_at = some t ∧
    ((markExecuted t d).status = some "executed" ↔ d.auto_execute = true) ∧
    (d.auto_execute = false → (markExecuted t d).status = some "pending_approval") ∧
    ((markExecuted t d).status = some "executed" ∨
      (markExecuted t d).status = some "pending_approval") := by
  refine ⟨rfl, rfl, ?_, ?_, ?_⟩ <;>
    cases hae : d.auto_execute <;> simp [markExecuted, hae]

/-- Witness for C3 at a concrete non-auto-execute decision. -/
theorem C3_execute_decision_invariant_witness :
    (markExecuted 0
      { type := PyVal.pyStr "client_communication", trigger := "schedule_conflict",
        data := PyVal.pyDict [], urgency := "high", auto_execute := false }).status =
      some "pending_approval" :=
  (C3_execute_decision_invariant 0
    { type := PyVal.pyStr "client_communication", trigger := "schedule_conflict",
      data := PyVal.pyDict [], urgency := "high", auto_execute := false }
    initEngine).2.2.2.1 rfl

/-- Claim C4, counterexample: `process_traffic_event` subscripts
`traffic_data["route_analysis"]` directly, so on a payload missing that
field it raises `KeyError` (`Option.none`) instead of returning the state
unchanged (`some initEngine`) as the claim asserts. -/
theorem C4_traffic_event_raises_on_missing_field :
    process_traffic_event [] initEngine = Option.none ∧
    process_traffic_event [] initEngine ≠ some initEngine :=
  ⟨rfl, fun h => Option.noConfusion h⟩

/-- Claim C4, amended: on a payload missing the expected field,
`process_scanner_event`, `process_weather_event` and
`process_schedule_event` raise no exception, create no decision and leave
the state unchanged; `process_traffic_event` instead raises `KeyError`
when `route_analysis` is missing. -/
theorem C4_missing_field_behaviour (d : Dict) (s : EngineState) :
    (dictGetItem d "location_extracted" = Option.none →
      process_scanner_event d s = s) ∧
    (dictGetItem d "alerts" = Option.none →
      process_weather_event d s = s) ∧
    (dictGetItem d "conflicts_resolved" = Option.none →
      process_schedule_event d s = some s) ∧
    (dictGetItem d "route_analysis" = Option.none →
      process_traffic_event d s = Option.none) := by
  refine ⟨fun h => ?_, fun h => ?_, fun h => ?_, fun h => ?_⟩
  · simp [process_scanner_event, dictGet_of_getItem_none h, truthy]
  · simp [process_weather_event, dictGet_of_getItem_none h, truthy]
  · simp [process_schedule_event, dictGetD_of_getItem_none h, pyGtInt]
  · simp [process_traffic_event, h]

/-- Witness for C4's amended theorem at the empty payload. -/
theorem C4_missing_field_behaviour_witness :
    process_scanner_event [] initEngine = initEngine ∧
    process_weather_event [] initEngine = initEngine ∧
    process_schedule_event [] initEngine = some initEngine ∧
    process_traffic_event [] initEngine = Option.none := by
  obtain ⟨h1, h2, h3, h4⟩ := C4_missing_field_behaviour [] initEngine
  exact ⟨h1 rfl, h2 rfl, h3 rfl, h4 rfl⟩

/-- Claim C5: a traffic event whose `route_analysis.travel_time_change` is
an integer greater than 10 enqueues exactly one `route_change` decision
(trigger `traffic_delay`, urgency `medium`, `auto_execute = true`); with
the value 10 or less, no decision is created and the state is unchanged. -/
theorem C5_traffic_event_rule (d ra : Dict) (n : Int) (s : EngineState)
    (hra : dictGetItem d "route_analysis" = some (PyVal.pyDict ra))
    (hn : dictGetItem ra "travel_time_change" = some (PyVal.pyInt n)) :
    (10 < n →
      process_traffic_event d s =
        some { s with pending_decisions := s.pending_decisions ++
          [{ type := PyVal.pyStr "route_change", trigger := "traffic_delay",
             data := PyVal.pyDict d, urgency := "medium", auto_execute := true }] }) ∧
    (n ≤ 10 → process_traffic_event d s = some s) := by
  constructor
  · intro h
    simp [process_traffic_event, hra, pyGetItem, hn, pyGtInt, h, putPending]
  · intro h
    simp [process_traffic_event, hra, pyGetItem, hn, pyGtInt, not_lt.2 h]

/-- Witness for C5 at `travel_time_change = 15` and the initial state. -/
theorem C5_traffic_event_rule_witness :
    process_traffic_event
        [("route_analysis", PyVal.pyDict [("travel_time_change", PyVal.pyInt 15)])]
        initEngine =
      some { pending_decisions :=
               [{ type := PyVal.pyStr "route_change", trigger := "traffic_delay",
                  data := PyVal.pyDict
                    [("route_analysis",
                      PyVal.pyDict [("travel_time_change", PyVal.pyInt 15)])],
                  urgency := "medium", auto_execute := true }],
             decision_history := [], user_preferences := [] } := by
  have h := (C5_traffic_event_rule
    [("route_analysis", PyVal.pyDict [("travel_time_change", PyVal.pyInt 15)])]
    [("travel_time_change", PyVal.pyInt 15)] 15 initEngine rfl rfl).1 (by norm_num)
  simpa [initEngine] using h

/-- Claim C6: a schedule event with `conflicts_resolved` equal to 0 or
absent (the `.get` default) creates no decision; with a positive value it
enqueues exactly one `client_communication` decision (trigger
`schedule_conflict`, urgency `high`, `auto_execute = false`). -/
theorem C6_schedule_event_rule (d : Dict) (n : Int) (s : EngineState) :
    ((dictGetItem d "conflicts_resolved" = Option.none ∨
      dictGetItem d "conflicts_resolved" = some (PyVal.pyInt 0)) →
      process_schedule_event d s = some s) ∧
    (dictGetItem d "conflicts_resolved" = some (PyVal.pyInt n) → 0 < n →
      process_schedule_event d s =
        some { s with pending_decisions := s.pending_decisions ++
          [{ type := PyVal.pyStr "client_communication", trigger := "schedule_conflict",
             data := PyVal.pyDict d, urgency := "high", auto_execute := false }] }) := by
  constructor
  · rintro (h | h)
    · simp [process_schedule_event, dictGetD_of_getItem_none h, pyGtInt]
    · simp [process_schedule_event, dictGetD_of_getItem_some h, pyGtInt]
  · intro h hn
    simp [process_schedule_event, dictGetD_of_getItem_some h, pyGtInt, hn, putPending]

/-- Witness for C6 at `conflicts_resolved = 2` and the initial state. -/
theorem C6_schedule_event_rule_witness :
    process_schedule_event [("conflicts_resolved", PyVal.pyInt 2)] initEngine =
      some { pending_decisions :=
               [{ type := PyVal.pyStr "client_communication",
                  trigger := "schedule_conflict",
                  data := PyVal.pyDict [("conflicts_resolved", PyVal.pyInt 2)],
                  urgency := "high", auto_execute := false }],
             decision_history := [], user_preferences := [] } := by
  have h := (C6_schedule_event_rule [("conflicts_resolved", PyVal.pyInt 2)] 2
    initEngine).2 rfl (by norm_num)
  simpa [initEngine] using h

/-- Claim C7: for every request JSON, `force_decision` enqueues one decision
with trigger `user_request`, urgency `immediate` and `auto_execute = true`
(type and payload taken from the request), touching nothing else; the next
drain grows the history by exactly one entry for it — its last entry —
with status `executed`. -/
theorem C7_force_decision (req : Dict) (t : Nat) (s : EngineState) :
    (force_decision req s).1.pending_decisions =
      s.pending_decisions ++
        [{ type := dictGet req "type", trigger := "user_request",
           data := dictGetD req "data" (PyVal.pyDict []), urgency := "immediate",
           auto_execute := true, forced := true }] ∧
    (force_decision req s).1.decision_history = s.decision_history ∧
    (process_pending_decisions t (force_decision req s).1).1.decision_history =
      s.decision_history ++ s.pending_decisions.map (markExecuted t) ++
        [markExecuted t
          { type := dictGet req "type", trigger := "user_request",
            data := dictGetD req "data" (PyVal.pyDict []), urgency := "immediate",
            auto_execute := true, forced := true }] ∧
    (markExecuted t
      { type := dictGet req "type", trigger := "user_request",
        data := dictGetD req "data" (PyVal.pyDict []), urgency := "immediate",
        auto_execute := true, forced := true }).status = some "executed" ∧
    (process_pending_decisions t (force_decision req s).1).1.decision_history.length =
      s.decision_history.length + s.pending_decisions.length + 1 := by
  refine ⟨rfl, rfl, ?_, rfl, ?_⟩
  · simp [process_pending_decisions_history, force_decision, putPending]
  · simp [process_pending_decisions_history, force_decision, putPending, Nat.add_assoc]

/-- Claim C8: the drain maps queue order to history order: with the
residual queue drained first, two decisions enqueued as D1 then D2 are
appended to the history as D1-then-D2, and in general the whole history
extension is the FIFO image of the queue. -/
theorem C8_drain_preserves_order (t : Nat) (s : EngineState) (d1 d2 : Decision) :
    (process_pending_decisions t (putPending (putPending s d1) d2)).1.decision_history =
      s.decision_history ++ s.pending_decisions.map (markExecuted t) ++
        [markExecuted t d1, markExecuted t d2] ∧
    (process_pending_decisions t s).1.decision_history =
      s.decision_history ++ s.pending_decisions.map (markExecuted t) := by
  constructor
  · simp [process_pending_decisions_history, putPending]
  · exact process_pending_decisions_history t s

theorem truncate100_length (l : List PyVal) : (truncate100 l).length ≤ 100 := by
  unfold truncate100
  split
  · rename_i h
    rw [List.length_drop]
    omega
  · rename_i h
    omega

theorem truncate100_suffix (l : List PyVal) : List.IsSuffix (truncate100 l) l := by
  unfold truncate100
  split
  · exact List.drop_suffix _ _
  · exact List.suffix_refl l

/-- Claim C9: the built-in event sources can never trigger three of the four
rules: `fetch_weather_updates` always reports `alerts == []`,
`analyze_traffic_conditions` always reports `travel_time_change == 0`, and
`optimize_schedule` always reports `conflicts_resolved == 0`, so processing
their outputs creates no `schedule_adjustment`, `route_change` or
`client_communication` decision and leaves the engine state unchanged. -/
theorem C9_simulators_never_trigger (t : Nat) (gate : Bool) (s : EngineState) :
    dictGet (fetch_weather_updates t) "alerts" = PyVal.pyList [] ∧
    process_weather_event (fetch_weather_updates t) s = s ∧
    (∀ d, analyze_traffic_conditions t gate = some d →
      (dictGetItem d "route_analysis").bind
          (fun ra => pyGetItem ra "travel_time_change") = some (PyVal.pyInt 0) ∧
      process_traffic_event d s = some s) ∧
    dictGet (optimize_schedule t) "conflicts_resolved" = PyVal.pyInt 0 ∧
    process_schedule_event (optimize_schedule t) s = some s := by
  refine ⟨rfl, ?_, ?_, rfl, ?_⟩
  · simp [process_weather_event, fetch_weather_updates, dictGet, dictGetD,
      dictGetItem, truthy]
  · intro d h
    cases gate with
    | false => exact Option.noConfusion h
    | true =>
      simp [analyze_traffic_conditions] at h
      subst h
      constructor
      · rfl
      · simp [process_traffic_event, dictGetItem, pyGetItem, pyGtInt]
  · simp [process_schedule_event, optimize_schedule, dictGetD, dictGetItem, pyGtInt]

/-- Witness for C9 at `t = 0`, an emitting traffic gate and the initial
engine state. -/
theorem C9_simulators_never_trigger_witness :
    process_weather_event (fetch_weather_updates 0) initEngine = initEngine ∧
    process_traffic_event
        [("timestamp", PyVal.pyInt 0),
         ("route_analysis", PyVal.pyDict
           [("primary_route", PyVal.pyStr "normal"),
            ("alternate_routes", PyVal.pyList [PyVal.pyStr "available"]),
            ("incidents", PyVal.pyList []),
            ("travel_time_change", PyVal.pyInt 0)])] initEngine = some initEngine ∧
    process_schedule_event (optimize_schedule 0) initEngine = some initEngine := by
  obtain ⟨-, h1, h2, -, h3⟩ := C9_simulators_never_trigger 0 true initEngine
  exact ⟨h1, (h2 _ rfl).2, h3⟩

/-- Claim C10: `_update_mood_tracking` keeps the mood history bounded: from
any state with at most 100 entries, a successful update leaves at most 100
entries, and what is kept is a suffix of the old history extended by the
new entry — the most recently appended entries. -/
theorem C10_mood_history_bounded (ar : Dict) (mt mt' : MoodTracking)
    (hlen : mt.mood_history.length ≤ 100)
    (h : update_mood_tracking ar mt = some mt') :
    mt'.mood_history.length ≤ 100 ∧
    ∃ e, List.IsSuffix mt'.mood_history (mt.mood_history ++ [e]) := by
  unfold update_mood_tracking at h
  split at h
  · exact Option.noConfusion h
  split at h
  · exact Option.noConfusion h
  split at h
  · exact Option.noConfusion h
  split at h
  · exact Option.noConfusion h
  split at h
  · exact Option.noConfusion h
  injection h with h
  subst h
  exact ⟨truncate100_length _, _, truncate100_suffix _⟩

/-- Witness for C10: processing a well-formed analysis result from the
initial mood-tracking state keeps the history within the bound. -/
theorem C10_mood_history_bounded_witness :
    update_mood_tracking analysisResultExample initMoodTracking =
      some moodAfterExample ∧
    moodAfterExample.mood_history.length ≤ 100 :=
  ⟨rfl, (C10_mood_history_bounded analysisResultExample initMoodTracking
    moodAfterExample (by simp [initMoodTracking]) rfl).1⟩

end Caroline
